import Mathlib

/-!
Verification of the tai-mcp core services against their specification.

Shallow embedding of:
  - src/src/services/email-poller.ts  (EmailPoller)
  - src/src/services/auth.ts          (AuthService)
  - src/src/services/api-client.ts    (ApiClient)

Asynchronous network and process calls are modelled by passing their outcomes
as explicit parameters; thrown JavaScript errors are modelled with Except.
-/

namespace TaiMcp

/-- One email message as returned by GET /api/v1/messages (src/src/types/api.ts).
Only the fields the poller reads appear; id is the monotonically increasing
ordinal of the data model. -/
structure Message where
  id : Nat
  fromAddr : String
  subject : String
  deriving DecidableEq, Repr

/-- Mutable fields of EmailPoller (src/src/services/email-poller.ts lines 11 to 13):
polling, pollInterval (the timer handle, modelled as an opaque Nat id) and
lastCheckedMessageId (the high-water mark). -/
structure PollerState where
  polling : Bool
  pollInterval : Option Nat
  lastCheckedMessageId : Option Nat
  deriving DecidableEq, Repr

/-- EmailPoller.stop (lines 75 to 88): an early return when not polling;
otherwise polling is set to false and the timer handle, when present, is
cleared and set to undefined. -/
def stop (s : PollerState) : PollerState :=
  if s.polling = false then s
  else { s with polling := false, pollInterval := none }

/-- An error thrown inside a poll cycle (the fetchMessages call rethrows
network, HTTP and auth failures as Error values). -/
inductive PollError where
  | apiFailure (msg : String)
  deriving DecidableEq, Repr

/-- A failure of the external per-message handler (execAsync of the claude
command in processNewEmail). -/
inductive ExecError where
  | execFailure (msg : String)
  deriving DecidableEq, Repr

/-- EmailPoller.processNewEmail (lines 150 to 223): runs the external handler
for one message inside its own try/catch; a handler failure is logged and
swallowed, so the call always returns normally. The Bool records whether the
handler succeeded (observable through the logs). -/
def processNewEmail (handler : Message → Except ExecError Unit) (m : Message) :
    Except PollError Bool :=
  match handler m with
  | Except.ok _ => Except.ok true
  | Except.error _ => Except.ok false

/-- The for-loop of checkForNewEmails (lines 124 to 126): processNewEmail is
awaited for each new message in order; the trace pairs each message id with
the success flag of its handler invocation. -/
def processBatch (handler : Message → Except ExecError Unit) :
    List Message → Except PollError (List (Nat × Bool))
  | [] => Except.ok []
  | m :: rest =>
    match processNewEmail handler m with
    | Except.error e => Except.error e
    | Except.ok b =>
      match processBatch handler rest with
      | Except.error e => Except.error e
      | Except.ok tr => Except.ok ((m.id, b) :: tr)

/-- The new-message filter of checkForNewEmails (lines 108 to 110):
JavaScript truthiness of lastCheckedMessageId means both undefined and 0
select the whole page; otherwise the page is filtered to ids strictly above
the mark. -/
def newMessagesOf (last : Option Nat) (msgs : List Message) : List Message :=
  match last with
  | none => msgs
  | some l => if l = 0 then msgs else msgs.filter (fun m => decide (l < m.id))

/-- Math.max over the ids of a fetched page (line 120); the page is nonempty
whenever this is used. -/
def listMax (l : List Nat) : Nat := l.foldl max 0

/-- The try-block of EmailPoller.checkForNewEmails (lines 91 to 126): fetch a
page (the outcome of apiClient.fetchMessages is the fetched parameter), return
early on an empty page or when nothing is newer than the mark, otherwise set
lastCheckedMessageId to the maximum id over the whole page and process each
new message in page order. -/
def checkForNewEmailsBody (s : PollerState)
    (fetched : Except PollError (List Message))
    (handler : Message → Except ExecError Unit) :
    Except PollError (PollerState × List (Nat × Bool)) :=
  match fetched with
  | Except.error e => Except.error e
  | Except.ok msgs =>
    if msgs = [] then Except.ok (s, [])
    else
      let newMsgs := newMessagesOf s.lastCheckedMessageId msgs
      if newMsgs = [] then Except.ok (s, [])
      else
        let latest := listMax (msgs.map Message.id)
        let s2 : PollerState := { s with lastCheckedMessageId := some latest }
        match processBatch handler newMsgs with
        | Except.error e => Except.error e
        | Except.ok tr => Except.ok (s2, tr)

/-- EmailPoller.checkForNewEmails (lines 90 to 148): the whole body runs
inside try/catch; any error is logged and swallowed, leaving the state
unchanged and dispatching nothing. -/
def checkForNewEmails (s : PollerState)
    (fetched : Except PollError (List Message))
    (handler : Message → Except ExecError Unit) :
    PollerState × List (Nat × Bool) :=
  match checkForNewEmailsBody s fetched handler with
  | Except.ok r => r
  | Except.error _ => (s, [])

/-- A sequence of poll cycles: each entry of the list is the fetch outcome of
one cycle; the dispatch traces are concatenated in cycle order. -/
def runCycles (handler : Message → Except ExecError Unit) :
    PollerState → List (Except PollError (List Message)) →
    PollerState × List (Nat × Bool)
  | s, [] => (s, [])
  | s, f :: fs =>
    let r := checkForNewEmails s f handler
    let rest := runCycles handler r.1 fs
    (rest.1, r.2 ++ rest.2)

/-- A handler whose external invocation always succeeds, for concrete runs. -/
def okHandler : Message → Except ExecError Unit := fun _ => Except.ok ()

/-- A fresh poller right after start() flips polling and arms the timer: the
high-water mark is still unset. -/
def pollInit : PollerState :=
  { polling := true, pollInterval := some 1, lastCheckedMessageId := none }

def msg1 : Message := { id := 1, fromAddr := "alice@example.com", subject := "one" }

def msg2 : Message := { id := 2, fromAddr := "bob@example.com", subject := "two" }

def msg3 : Message := { id := 3, fromAddr := "carol@example.com", subject := "three" }

/-- A poller that has already seen messages up to id 5. -/
def pollSeen : PollerState :=
  { polling := true, pollInterval := some 1, lastCheckedMessageId := some 5 }

lemma newMessagesOf_subset {last : Option Nat} {msgs : List Message} {m : Message}
    (hm : m ∈ newMessagesOf last msgs) : m ∈ msgs := by
  cases last with
  | none => exact hm
  | some l =>
    by_cases hl : l = 0
    · simpa [newMessagesOf, hl] using hm
    · simp only [newMessagesOf, if_neg hl] at hm
      exact List.mem_of_mem_filter hm

lemma newMessagesOf_gt {l : Nat} {msgs : List Message} {m : Message}
    (hl : l ≠ 0) (hm : m ∈ newMessagesOf (some l) msgs) : l < m.id := by
  simp only [newMessagesOf, if_neg hl] at hm
  simpa using List.of_mem_filter hm

lemma le_foldl_max (l : List Nat) (a : Nat) : a ≤ l.foldl max a := by
  induction l generalizing a with
  | nil => simp
  | cons x xs ih => exact le_trans (le_max_left a x) (ih (max a x))

lemma foldl_max_mono {a b : Nat} (l : List Nat) (h : a ≤ b) :
    l.foldl max a ≤ l.foldl max b := by
  induction l generalizing a b with
  | nil => simpa using h
  | cons x xs ih => exact ih (max_le_max h (le_refl x))

lemma mem_le_listMax {x : Nat} {l : List Nat} (hx : x ∈ l) : x ≤ listMax l := by
  induction l with
  | nil => cases hx
  | cons y ys ih =>
    rcases List.mem_cons.mp hx with h | h
    · subst h
      exact le_trans (le_max_right 0 x) (le_foldl_max ys (max 0 x))
    · exact le_trans (ih h) (by
        simp only [listMax, List.foldl_cons]
        exact foldl_max_mono ys (Nat.zero_le (max 0 y)))

lemma processBatch_ok (handler : Message → Except ExecError Unit) (l : List Message) :
    ∃ tr, processBatch handler l = Except.ok tr ∧ tr.map Prod.fst = l.map Message.id := by
  induction l with
  | nil => exact ⟨[], rfl, rfl⟩
  | cons m rest ih =>
    obtain ⟨tr, htr, hmap⟩ := ih
    cases hm : handler m with
    | ok u =>
      refine ⟨(m.id, true) :: tr, ?_, by simp [hmap]⟩
      simp [processBatch, processNewEmail, hm, htr, Except.bind]
    | error e =>
      refine ⟨(m.id, false) :: tr, ?_, by simp [hmap]⟩
      simp [processBatch, processNewEmail, hm, htr, Except.bind]

/-- Characterisation of one successful poll cycle: either nothing is newer than
the mark and the state is untouched with no dispatches, or the mark is set to
the page maximum and exactly the new messages are dispatched in page order. -/
lemma check_ok_spec (s : PollerState) (msgs : List Message)
    (handler : Message → Except ExecError Unit) :
    (newMessagesOf s.lastCheckedMessageId msgs = []
      ∧ checkForNewEmails s (Except.ok msgs) handler = (s, []))
    ∨ (newMessagesOf s.lastCheckedMessageId msgs ≠ []
      ∧ (checkForNewEmails s (Except.ok msgs) handler).1
          = { s with lastCheckedMessageId := some (listMax (msgs.map Message.id)) }
      ∧ (checkForNewEmails s (Except.ok msgs) handler).2.map Prod.fst
          = (newMessagesOf s.lastCheckedMessageId msgs).map Message.id) := by
  by_cases hms : msgs = []
  · subst hms
    left
    constructor
    · cases h : s.lastCheckedMessageId with
      | none => rfl
      | some l => by_cases hl : l = 0 <;> simp [newMessagesOf, hl]
    · rfl
  · by_cases hnew : newMessagesOf s.lastCheckedMessageId msgs = []
    · left
      refine ⟨hnew, ?_⟩
      simp [checkForNewEmails, checkForNewEmailsBody, hms, hnew]
    · right
      obtain ⟨tr, htr, hmap⟩ :=
        processBatch_ok handler (newMessagesOf s.lastCheckedMessageId msgs)
      refine ⟨hnew, ?_, ?_⟩ <;>
        simp [checkForNewEmails, checkForNewEmailsBody, hms, hnew, htr, hmap]

lemma check_err (s : PollerState) (e : PollError)
    (handler : Message → Except ExecError Unit) :
    checkForNewEmails s (Except.error e) handler = (s, []) := rfl

lemma check_ok_trace_ids (s : PollerState) (msgs : List Message)
    (handler : Message → Except ExecError Unit) :
    (checkForNewEmails s (Except.ok msgs) handler).2.map Prod.fst
      = (newMessagesOf s.lastCheckedMessageId msgs).map Message.id := by
  rcases check_ok_spec s msgs handler with ⟨hnew, hr⟩ | ⟨_, _, hmap⟩
  · simp [hr, hnew]
  · exact hmap

lemma newMessagesOf_pairwise {last : Option Nat} {msgs : List Message}
    (h : List.Pairwise (· < ·) (msgs.map Message.id)) :
    List.Pairwise (· < ·) ((newMessagesOf last msgs).map Message.id) := by
  have hmsgs : List.Pairwise (fun a b : Message => a.id < b.id) msgs :=
    List.pairwise_map.mp h
  cases last with
  | none => exact h
  | some l =>
    by_cases hl : l = 0
    · simpa [newMessagesOf, hl] using h
    · simp only [newMessagesOf, if_neg hl]
      exact List.pairwise_map.mpr
        (List.Pairwise.sublist (List.filter_sublist msgs) hmsgs)

/-- Once the mark sits at a nonzero l, every id dispatched by any further
sequence of cycles whose pages hold only positive ids is strictly above l. -/
lemma runCycles_gt (handler : Message → Except ExecError Unit)
    (pages : List (Except PollError (List Message))) :
    ∀ (s : PollerState) (l : Nat), s.lastCheckedMessageId = some l → l ≠ 0 →
    (∀ msgs, Except.ok msgs ∈ pages → ∀ m ∈ msgs, 1 ≤ m.id) →
    ∀ x ∈ (runCycles handler s pages).2.map Prod.fst, l < x := by
  induction pages with
  | nil =>
    intro s l _ _ _ x hx
    simp [runCycles] at hx
  | cons f fs ih =>
    intro s l hl hl0 hpos x hx
    have hposf : ∀ msgs, Except.ok msgs ∈ fs → ∀ m ∈ msgs, 1 ≤ m.id :=
      fun msgs hm => hpos msgs (List.mem_cons_of_mem f hm)
    simp only [runCycles, List.map_append, List.mem_append] at hx
    rcases hx with hx | hx
    · cases f with
      | error e => simp [check_err] at hx
      | ok msgs =>
        rw [check_ok_trace_ids, hl] at hx
        obtain ⟨m, hm, hmid⟩ := List.mem_map.mp hx
        have := newMessagesOf_gt hl0 hm
        omega
    · cases f with
      | error e =>
        simp only [check_err] at hx
        exact ih s l hl hl0 hposf x hx
      | ok msgs =>
        rcases check_ok_spec s msgs handler with ⟨hnew, hr⟩ | ⟨hnew, hst, _⟩
        · rw [hr] at hx
          exact ih s l hl hl0 hposf x hx
        · obtain ⟨m, hm⟩ := List.exists_mem_of_ne_nil _ hnew
          have hgt : l < m.id := newMessagesOf_gt hl0 (hl ▸ hm)
          have hsub : m ∈ msgs := newMessagesOf_subset hm
          have hm1 : 1 ≤ m.id := hpos msgs (List.mem_cons_self _ _) m hsub
          have hmle : m.id ≤ listMax (msgs.map Message.id) :=
            mem_le_listMax (List.mem_map_of_mem Message.id hsub)
          have hMx : listMax (msgs.map Message.id) < x :=
            ih (checkForNewEmails s (Except.ok msgs) handler).1
              (listMax (msgs.map Message.id)) (by simp [hst]) (by omega) hposf x hx
          omega

/-- C1 counterexample: the code dispatches in fetched-page order without
sorting, so a page arriving newest-first (the order the repository itself
assumes in src/src/tools/fetch-email.ts) is dispatched in descending id
order; and an id below the page maximum that was fetched only after the mark
passed it is never dispatched in any cycle: two cycles fetching the pages
with ids 2 and then 1, 2 dispatch only id 2. -/
theorem dispatch_page_order_counterexample :
    ¬ List.Pairwise (· < ·)
      ((checkForNewEmails pollInit (Except.ok [msg2, msg1]) okHandler).2.map Prod.fst)
    ∧ (runCycles okHandler pollInit
        [Except.ok [msg2], Except.ok [msg1, msg2]]).2.map Prod.fst = [2] := by
  constructor
  · have htr : (checkForNewEmails pollInit
        (Except.ok [msg2, msg1]) okHandler).2.map Prod.fst = [2, 1] := rfl
    rw [htr]
    intro h
    have h21 := (List.pairwise_cons.mp h).1 1 (List.mem_singleton.mpr rfl)
    omega
  · rfl

/-- C1 amended: each id is dispatched at most once across any sequence of
cycles (the concatenated trace has no duplicates), and the full dispatch
sequence is strictly ascending whenever every fetched page lists positive ids
in ascending order; the code itself never sorts, so the order and the
completeness of dispatch depend on the order the server returns, and ids that
only appear below the high-water mark are never dispatched. -/
theorem dispatches_ascending_of_sorted_pages
    (handler : Message → Except ExecError Unit)
    (pages : List (Except PollError (List Message))) :
    ∀ (s : PollerState),
    (∀ msgs, Except.ok msgs ∈ pages → ∀ m ∈ msgs, 1 ≤ m.id) →
    (∀ msgs, Except.ok msgs ∈ pages → List.Pairwise (· < ·) (msgs.map Message.id)) →
    List.Pairwise (· < ·) ((runCycles handler s pages).2.map Prod.fst)
    ∧ ((runCycles handler s pages).2.map Prod.fst).Nodup := by
  induction pages with
  | nil =>
    intro s _ _
    constructor <;> simp [runCycles]
  | cons f fs ih =>
    intro s hpos hsort
    have hposf : ∀ msgs, Except.ok msgs ∈ fs → ∀ m ∈ msgs, 1 ≤ m.id :=
      fun msgs hm => hpos msgs (List.mem_cons_of_mem f hm)
    have hsortf : ∀ msgs, Except.ok msgs ∈ fs →
        List.Pairwise (· < ·) (msgs.map Message.id) :=
      fun msgs hm => hsort msgs (List.mem_cons_of_mem f hm)
    have hrest := ih (checkForNewEmails s f handler).1 hposf hsortf
    have hs : List.Pairwise (· < ·)
        ((runCycles handler s (f :: fs)).2.map Prod.fst) := by
      simp only [runCycles, List.map_append]
      rw [List.pairwise_append]
      refine ⟨?_, hrest.1, ?_⟩
      · cases f with
        | error e => simp [check_err]
        | ok msgs =>
          rw [check_ok_trace_ids]
          exact newMessagesOf_pairwise (hsort msgs (List.mem_cons_self _ _))
      · intro a ha b hb
        cases f with
        | error e => simp [check_err] at ha
        | ok msgs =>
          rw [check_ok_trace_ids] at ha
          obtain ⟨m, hm, hmid⟩ := List.mem_map.mp ha
          rcases check_ok_spec s msgs handler with ⟨hnew, _⟩ | ⟨_, hst, _⟩
          · rw [hnew] at hm
            cases hm
          · have hsub : m ∈ msgs := newMessagesOf_subset hm
            have hm1 : 1 ≤ m.id := hpos msgs (List.mem_cons_self _ _) m hsub
            have hmle : m.id ≤ listMax (msgs.map Message.id) :=
              mem_le_listMax (List.mem_map_of_mem Message.id hsub)
            have hMb : listMax (msgs.map Message.id) < b :=
              runCycles_gt handler fs
                (checkForNewEmails s (Except.ok msgs) handler).1
                (listMax (msgs.map Message.id)) (by simp [hst]) (by omega)
                hposf b hb
            omega
    exact ⟨hs, hs.imp fun h => Nat.ne_of_lt h⟩

/-- C1 witness: two ascending positive pages from a fresh poller dispatch the
strictly ascending, duplicate-free id sequence 1, 2, 3. -/
theorem dispatches_ascending_witness :
    List.Pairwise (· < ·)
      ((runCycles okHandler pollInit
        [Except.ok [msg1], Except.ok [msg1, msg2, msg3]]).2.map Prod.fst)
    ∧ ((runCycles okHandler pollInit
        [Except.ok [msg1], Except.ok [msg1, msg2, msg3]]).2.map Prod.fst).Nodup :=
  dispatches_ascending_of_sorted_pages okHandler
    [Except.ok [msg1], Except.ok [msg1, msg2, msg3]] pollInit
    (by
      intro msgs hm m hmem
      simp only [List.mem_cons, List.not_mem_nil, or_false] at hm
      rcases hm with hm | hm <;> injection hm with hm <;> subst hm <;>
        fin_cases hmem <;> decide)
    (by
      intro msgs hm
      simp only [List.mem_cons, List.not_mem_nil, or_false] at hm
      rcases hm with hm | hm <;> injection hm with hm <;> subst hm <;>
        simp [msg1, msg2, msg3])

/-- C4 counterexample: pollSeen has mark 5; a successful cycle whose fetched
page holds only the already-seen id 3 leaves the mark at 5 and performs no
mutation, while the claim demands one mutation setting it to the page maximum
3. -/
theorem seen_page_leaves_mark_unchanged :
    (checkForNewEmails pollSeen (Except.ok [msg3]) okHandler).1.lastCheckedMessageId
      = some 5
    ∧ listMax ([msg3].map Message.id) = 3
    ∧ (checkForNewEmails pollSeen (Except.ok [msg3]) okHandler).1.lastCheckedMessageId
      ≠ some (listMax ([msg3].map Message.id)) := by
  refine ⟨rfl, rfl, by decide⟩

/-- C4 amended: on a successful cycle the high-water mark is mutated at most
once — exactly when the page holds a message newer than the mark — and is then
set to the maximum id over the whole fetched page; it never decreases. -/
theorem highWaterMark_monotone_updated_on_new (s : PollerState)
    (fetched : Except PollError (List Message))
    (handler : Message → Except ExecError Unit) :
    (∀ l, s.lastCheckedMessageId = some l →
      ∃ l2, (checkForNewEmails s fetched handler).1.lastCheckedMessageId = some l2
        ∧ l ≤ l2)
    ∧ ((checkForNewEmails s fetched handler).1.lastCheckedMessageId
          ≠ s.lastCheckedMessageId →
        ∃ msgs, fetched = Except.ok msgs
          ∧ newMessagesOf s.lastCheckedMessageId msgs ≠ []
          ∧ (checkForNewEmails s fetched handler).1.lastCheckedMessageId
              = some (listMax (msgs.map Message.id))) := by
  cases fetched with
  | error e =>
    refine ⟨fun l hl => ⟨l, by simp [check_err, hl], le_refl l⟩, ?_⟩
    intro hne
    exact absurd (by simp [check_err]) hne
  | ok msgs =>
    rcases check_ok_spec s msgs handler with ⟨hnew, hr⟩ | ⟨hnew, hst, _⟩
    · refine ⟨fun l hl => ⟨l, by simp [hr, hl], le_refl l⟩, ?_⟩
      intro hne
      exact absurd (by simp [hr]) hne
    · constructor
      · intro l hl
        refine ⟨listMax (msgs.map Message.id), by simp [hst], ?_⟩
        obtain ⟨m, hm⟩ := List.exists_mem_of_ne_nil _ hnew
        by_cases hl0 : l = 0
        · simp [hl0]
        · have hgt : l < m.id := newMessagesOf_gt hl0 (hl ▸ hm)
          have hle : m.id ≤ listMax (msgs.map Message.id) :=
            mem_le_listMax (List.mem_map_of_mem Message.id (newMessagesOf_subset (hl ▸ hm)))
          omega
      · intro _
        exact ⟨msgs, rfl, hnew, by simp [hst]⟩

/-- C4 witness: instantiating the amended mark theorem on a fresh poller and
the page with the single id 1: the mark becomes 1, the update condition holds
with a nonempty new-message set, and monotonicity is vacuous. -/
theorem highWaterMark_update_witness :
    ∃ msgs, (Except.ok [msg1] : Except PollError (List Message)) = Except.ok msgs
      ∧ newMessagesOf pollInit.lastCheckedMessageId msgs ≠ []
      ∧ (checkForNewEmails pollInit (Except.ok [msg1]) okHandler).1.lastCheckedMessageId
          = some (listMax (msgs.map Message.id)) :=
  (highWaterMark_monotone_updated_on_new pollInit (Except.ok [msg1]) okHandler).2
    (by decide)

/-- C7: a failed fetch is caught inside the cycle, leaving the poller state
(running flag, timer, mark) untouched and dispatching nothing; the per-message
handler runs inside its own catch and always returns normally, so every new
message of a batch is processed in order no matter how many handlers fail. -/
theorem poll_cycle_swallows_failures :
    (∀ (s : PollerState) (e : PollError) (handler : Message → Except ExecError Unit),
      checkForNewEmails s (Except.error e) handler = (s, []))
    ∧ (∀ (handler : Message → Except ExecError Unit) (m : Message),
      ∃ b, processNewEmail handler m = Except.ok b)
    ∧ (∀ (s : PollerState) (msgs : List Message)
        (handler : Message → Except ExecError Unit),
      (checkForNewEmails s (Except.ok msgs) handler).2.map Prod.fst
        = (newMessagesOf s.lastCheckedMessageId msgs).map Message.id) := by
  refine ⟨fun s e handler => check_err s e handler, ?_, ?_⟩
  · intro handler m
    cases hm : handler m with
    | ok u => exact ⟨true, by simp [processNewEmail, hm]⟩
    | error e => exact ⟨false, by simp [processNewEmail, hm]⟩
  · intro s msgs handler
    rcases check_ok_spec s msgs handler with ⟨hnew, hr⟩ | ⟨_, _, hmap⟩
    · simp [hr, hnew]
    · exact hmap

/-- C5: with the high-water mark unset, a first cycle fetching pages with ids
1 and 2 dispatches both (the whole backlog) and leaves the mark at 2; a second
cycle fetching ids 1, 2, 3 dispatches only id 3 and leaves the mark at 3. -/
theorem first_cycle_backlog_then_incremental :
    (checkForNewEmails pollInit (Except.ok [msg1, msg2]) okHandler).2.map Prod.fst
        = [1, 2]
    ∧ (checkForNewEmails pollInit (Except.ok [msg1, msg2]) okHandler).1.lastCheckedMessageId
        = some 2
    ∧ (checkForNewEmails
        (checkForNewEmails pollInit (Except.ok [msg1, msg2]) okHandler).1
        (Except.ok [msg1, msg2, msg3]) okHandler).2.map Prod.fst = [3]
    ∧ (checkForNewEmails
        (checkForNewEmails pollInit (Except.ok [msg1, msg2]) okHandler).1
        (Except.ok [msg1, msg2, msg3]) okHandler).1.lastCheckedMessageId = some 3 := by
  refine ⟨rfl, rfl, rfl, rfl⟩

/-- C9: stop is idempotent on every poller state: a second stop leaves the
running flag, the timer handle and the high-water mark exactly as one stop
does. -/
theorem stop_idempotent (s : PollerState) : stop (stop s) = stop s := by
  cases h : s.polling <;> simp [stop, h]

/-- Timing model of the recurring timer armed by EmailPoller.start (line 51):
Node setInterval invokes its callback at every multiple of the interval after
the timer is armed, whether or not the promise returned by a previous
asynchronous callback has settled (the await inside one callback only
serialises that callback). The k-th firing happens interval * (k + 1) after
arming; the initial check of lines 30 to 48 is awaited before the timer is
armed and so precedes every firing. -/
def timerFiring (interval : Nat) (k : Nat) : Nat := interval * (k + 1)

/-- The cycle started by the i-th firing, running for dur i, is still in
progress when the cycle of the j-th firing starts. -/
def cyclesOverlap (interval : Nat) (dur : Nat → Nat) (i j : Nat) : Prop :=
  i < j ∧ timerFiring interval j < timerFiring interval i + dur i

/-- C3 counterexample: with a 1 ms interval and a cycle body that takes 2 ms
(checkForNewEmails awaits one external handler invocation per message, each
with a 5 minute timeout, so a cycle can far outlast the interval), the cycle
of the first firing is still running when the second firing starts its own
cycle: setInterval consumes firings regardless of the previous callback. -/
theorem overlapping_cycles_counterexample : cyclesOverlap 1 (fun _ => 2) 0 1 := by
  constructor <;> simp [timerFiring]

/-- C3 amended: poll cycles never overlap provided every cycle completes
within the poll interval; the code's setInterval does not await the previous
callback, so the no-overlap guarantee is conditional on cycle duration, not
structural. -/
theorem cycles_disjoint_of_bounded_duration (interval : Nat) (dur : Nat → Nat)
    (hdur : ∀ k, dur k ≤ interval) (i j : Nat) (hij : i < j) :
    ¬ cyclesOverlap interval dur i j := by
  rintro ⟨-, hover⟩
  have h1 : interval * (i + 1) + dur i ≤ interval * (i + 2) := by
    have hd := hdur i
    have h2 : interval * (i + 2) = interval * (i + 1) + interval := by ring
    omega
  have h2 : interval * (i + 2) ≤ interval * (j + 1) :=
    Nat.mul_le_mul_left interval (by omega)
  simp only [timerFiring] at hover
  omega

/-- C3 witness: with a 5 ms interval and every cycle taking 3 ms, the first
two firings do not overlap. -/
theorem cycles_disjoint_witness : ¬ cyclesOverlap 5 (fun _ => 3) 0 1 :=
  cycles_disjoint_of_bounded_duration 5 (fun _ => 3)
    (fun _ => (by decide : (3 : Nat) ≤ 5)) 0 1 (by decide)

/-- Mutable fields of AuthService (src/src/services/auth.ts lines 6 to 7):
the current token and its expiry, the Date value kept as milliseconds since
the epoch. -/
structure AuthState where
  token : Option String
  tokenExpiry : Option Int
  deriving DecidableEq, Repr

/-- The proactive refresh buffer of isTokenExpired (line 85): 5 minutes in
milliseconds. -/
def refreshSkew : Int := 5 * 60 * 1000

/-- JavaScript truthiness of this.token as tested by the bare negations on
lines 61 and 67: undefined and the empty string are both falsy, so an empty
token counts as no token. -/
def hasToken (s : AuthState) : Bool :=
  match s.token with
  | none => false
  | some t => decide (t ≠ "")

/-- AuthService.isTokenExpired (lines 80 to 86): true when no expiry is
stored, otherwise true exactly when now lies strictly past expiry minus the
5 minute buffer. -/
def isTokenExpired (now : Int) (s : AuthState) : Bool :=
  match s.tokenExpiry with
  | none => true
  | some e => decide (now > e - refreshSkew)

/-- Errors thrown by the auth service, with the message of the thrown Error
where one is built. -/
inductive AuthError where
  | loginFailed (msg : String)
  | networkFailure (msg : String)
  | noToken
  deriving DecidableEq, Repr

/-- The token and expiry of a successful login response body
(src/src/types/api.ts LoginResponse). -/
structure LoginData where
  token : String
  expires_at : Int
  deriving DecidableEq, Repr

/-- The parsed JSON body of the login endpoint as AuthService.makeRequest
returns it (that helper does not throw on a non-ok HTTP status; it returns
the body, so login sees success, data and error message fields). -/
structure LoginApiResponse where
  success : Bool
  data : Option LoginData
  errMsg : Option String
  deriving DecidableEq, Repr

/-- AuthService.login (lines 36 to 58): the outcome parameter is the result
of the network exchange — a thrown fetch/json error, or a parsed body. On a
body lacking success or data the call throws and assigns nothing; only on a
successful body are token and tokenExpiry overwritten, with the returned
token and expires_at. -/
def login (s : AuthState) (outcome : Except String LoginApiResponse) :
    Except AuthError LoginData × AuthState :=
  match outcome with
  | Except.error m => (Except.error (AuthError.networkFailure m), s)
  | Except.ok r =>
    match r.success, r.data with
    | true, some d =>
      (Except.ok d, { token := some d.token, tokenExpiry := some d.expires_at })
    | _, _ =>
      (Except.error
        (AuthError.loginFailed ("Login failed: " ++ r.errMsg.getD "Unknown error")), s)

/-- AuthService.ensureAuthenticated (lines 60 to 64): logs in exactly once
when the token is missing or expired, otherwise does nothing. The Nat counts
the login calls performed. -/
def ensureAuthenticated (now : Int) (s : AuthState)
    (outcome : Except String LoginApiResponse) :
    Except AuthError Unit × AuthState × Nat :=
  if !hasToken s || isTokenExpired now s then
    let r := login s outcome
    (r.1.map (fun _ => ()), r.2, 1)
  else
    (Except.ok (), s, 0)

/-- AuthService.getAuthHeaders (lines 66 to 74): throws when no truthy token
is stored, else returns the Authorization header derived from it; the state
is returned unchanged to record that the call mutates nothing. -/
def getAuthHeaders (s : AuthState) :
    Except AuthError (List (String × String)) × AuthState :=
  match s.token with
  | none => (Except.error AuthError.noToken, s)
  | some t =>
    if t = "" then (Except.error AuthError.noToken, s)
    else (Except.ok [("Authorization", "Bearer " ++ t)], s)

/-- A session whose expiry lies exactly refreshSkew (5 minutes) away from
time 0. -/
def sessionAtBoundary : AuthState :=
  { token := some "tok", tokenExpiry := some 300000 }

/-- C6 counterexample: for a session expiring exactly 5 minutes from now the
claim's validity reading (now strictly before expiresAt minus the skew) calls
the session invalid and demands one login, but isTokenExpired uses a strict
greater-than, so ensureAuthenticated performs zero logins at that instant. -/
theorem skew_boundary_counterexample :
    (ensureAuthenticated 0 sessionAtBoundary (Except.error "unused")).2.2 = 0
    ∧ ¬ ((0 : Int) < 300000 - refreshSkew) := by
  refine ⟨rfl, by decide⟩

/-- C6 amended: ensureAuthenticated performs zero logins exactly when a truthy
token exists and now ≤ expiresAt − refreshSkew (the boundary instant counts as
valid), and is then a no-op; otherwise it performs exactly one login, and when
that login succeeds with a nonempty token, a subsequent getAuthHeaders returns
the refreshed token. -/
theorem ensureAuthenticated_spec (now : Int) (s : AuthState)
    (outcome : Except String LoginApiResponse) :
    ((ensureAuthenticated now s outcome).2.2 = 0
      ↔ hasToken s = true ∧ ∃ e, s.tokenExpiry = some e ∧ now ≤ e - refreshSkew)
    ∧ ((ensureAuthenticated now s outcome).2.2 = 0 →
        ensureAuthenticated now s outcome = (Except.ok (), s, 0))
    ∧ ((ensureAuthenticated now s outcome).2.2 = 0
        ∨ (ensureAuthenticated now s outcome).2.2 = 1)
    ∧ (∀ r d, outcome = Except.ok r → r.success = true → r.data = some d →
        d.token ≠ "" → (ensureAuthenticated now s outcome).2.2 = 1 →
        (getAuthHeaders (ensureAuthenticated now s outcome).2.1).1
          = Except.ok [("Authorization", "Bearer " ++ d.token)]) := by
  by_cases hc : (!hasToken s || isTokenExpired now s) = true
  · have h1 : (ensureAuthenticated now s outcome).2.2 = 1 := by
      simp [ensureAuthenticated, hc]
    refine ⟨?_, ?_, Or.inr h1, ?_⟩
    · constructor
      · intro h0
        rw [h1] at h0
        cases h0
      · rintro ⟨htok, e, he, hle⟩
        have hexp : isTokenExpired now s = false := by
          simp only [isTokenExpired, he, decide_eq_false_iff_not]
          omega
        rw [htok, hexp] at hc
        cases hc
    · intro h0
      rw [h1] at h0
      cases h0
    · intro r d hout hsucc hdata hdtok _
      subst hout
      have hlogin : login s (Except.ok r)
          = (Except.ok d, { token := some d.token, tokenExpiry := some d.expires_at }) := by
        cases r with
        | mk succ dat em => cases hsucc; cases hdata; rfl
      simp [ensureAuthenticated, hc, hlogin, getAuthHeaders, hdtok]
  · have hc' : hasToken s = true ∧ isTokenExpired now s = false := by
      constructor
      · cases h : hasToken s
        · rw [h] at hc
          simp at hc
        · rfl
      · cases h : isTokenExpired now s
        · rfl
        · rw [h] at hc
          simp at hc
    have h0 : ensureAuthenticated now s outcome = (Except.ok (), s, 0) := by
      simp [ensureAuthenticated, hc'.1, hc'.2]
    refine ⟨?_, fun _ => h0, Or.inl (by rw [h0]), ?_⟩
    · constructor
      · intro _
        refine ⟨hc'.1, ?_⟩
        have hexp := hc'.2
        cases he : s.tokenExpiry with
        | none => simp [isTokenExpired, he] at hexp
        | some e =>
          refine ⟨e, rfl, ?_⟩
          simp only [isTokenExpired, he, decide_eq_false_iff_not] at hexp
          omega
      · intro _
        rw [h0]
    · intro r d hout hsucc hdata hdtok h1
      rw [h0] at h1
      cases h1

/-- A session whose expiry lies 4 minutes from time 0, inside the skew. -/
def fourMinSession : AuthState := { token := some "old", tokenExpiry := some 240000 }

/-- A successful login body carrying a fresh token. -/
def freshData : LoginData := { token := "fresh", expires_at := 900000 }

def freshResponse : LoginApiResponse :=
  { success := true, data := some freshData, errMsg := none }

/-- C6 witness: at time 0 a session expiring in 4 minutes (inside the 5 minute
skew) yields exactly one login, after which getAuthHeaders carries the fresh
token. -/
theorem ensureAuthenticated_witness :
    (getAuthHeaders (ensureAuthenticated 0 fourMinSession
        (Except.ok freshResponse)).2.1).1
      = Except.ok [("Authorization", "Bearer " ++ "fresh")] :=
  (ensureAuthenticated_spec 0 fourMinSession (Except.ok freshResponse)).2.2.2
    freshResponse freshData rfl rfl rfl (by decide) rfl

/-- C8: getAuthHeaders throws the no-token AuthError exactly when the session
holds no truthy token (undefined or the empty string, the two falsy cases of
the bare negation on line 67); with a token present it returns the single
Authorization Bearer header built from it, and it never mutates the session. -/
theorem getAuthHeaders_spec (s : AuthState) :
    ((getAuthHeaders s).1 = Except.error AuthError.noToken ↔ hasToken s = false)
    ∧ (∀ t, s.token = some t → t ≠ "" →
        (getAuthHeaders s).1 = Except.ok [("Authorization", "Bearer " ++ t)])
    ∧ (getAuthHeaders s).2 = s := by
  obtain ⟨tok, exp⟩ := s
  cases tok with
  | none =>
    refine ⟨by simp [getAuthHeaders, hasToken], ?_, rfl⟩
    intro t htt
    cases htt
  | some t =>
    by_cases he : t = ""
    · subst he
      refine ⟨by simp [getAuthHeaders, hasToken], ?_, by simp [getAuthHeaders]⟩
      intro u htu hu
      cases htu
      exact absurd rfl hu
    · refine ⟨by simp [getAuthHeaders, hasToken, he], ?_, by simp [getAuthHeaders, he]⟩
      intro u htu _
      cases htu
      simp [getAuthHeaders, he]

/-- A session holding the token tok with no stored expiry. -/
def tokSession : AuthState := { token := some "tok", tokenExpiry := none }

/-- C8 witness: on a session holding the token tok, getAuthHeaders returns
the Bearer header. -/
theorem getAuthHeaders_witness :
    (getAuthHeaders tokSession).1
      = Except.ok [("Authorization", "Bearer " ++ "tok")] :=
  (getAuthHeaders_spec tokSession).2.1 "tok" rfl (by decide)

/-- C10: login is atomic on the session: a network or timeout failure, and an
unsuccessful or dataless body, throw and leave token and tokenExpiry exactly
as they were; only a successful body overwrites them, with the returned token
and expires_at. -/
theorem login_atomic (s : AuthState) (outcome : Except String LoginApiResponse) :
    (∀ m, outcome = Except.error m →
      login s outcome = (Except.error (AuthError.networkFailure m), s))
    ∧ (∀ r, outcome = Except.ok r → (r.success = false ∨ r.data = none) →
        ∃ e, login s outcome = (Except.error e, s))
    ∧ (∀ r d, outcome = Except.ok r → r.success = true → r.data = some d →
        login s outcome
          = (Except.ok d, { token := some d.token, tokenExpiry := some d.expires_at })) := by
  refine ⟨?_, ?_, ?_⟩
  · intro m hm
    subst hm
    rfl
  · intro r hr hbad
    subst hr
    cases r with
    | mk succ dat em =>
      rcases hbad with hb | hb
      · cases hb
        exact ⟨_, by cases dat <;> rfl⟩
      · cases hb
        exact ⟨_, by cases succ <;> rfl⟩
  · intro r d hr hsucc hdata
    subst hr
    cases r with
    | mk succ dat em =>
      cases hsucc
      cases hdata
      rfl

/-- A session predating a failed login attempt. -/
def oldSession : AuthState := { token := some "old", tokenExpiry := some 100 }

/-- A login body reporting failure. -/
def badResponse : LoginApiResponse :=
  { success := false, data := none, errMsg := some "bad credentials" }

/-- C10 witness: a failing login (success false) leaves a concrete session
untouched. -/
theorem login_atomic_witness :
    ∃ e, login oldSession (Except.ok badResponse)
      = (Except.error e, oldSession) :=
  (login_atomic oldSession (Except.ok badResponse)).2.1 badResponse rfl (Or.inl rfl)

/-- The outcome of one fetch as seen by ApiClient.makeRequest (lines 167 to
196): a parsed 2xx body, a non-ok response with its status, optional body
error message and status text, or a rejected fetch/json promise (network
failure or the AbortSignal timeout). -/
inductive HttpOutcome where
  | ok (body : String)
  | httpError (status : Nat) (errMsg : Option String) (statusText : String)
  | netFailure (msg : String)
  deriving DecidableEq, Repr

/-- A thrown JavaScript Error, reduced to its message. -/
structure JsError where
  message : String
  deriving DecidableEq, Repr

/-- String.prototype.includes with the needle 401, the classification used by
the catch of makeAuthenticatedRequest (line 149). -/
def has401 : List Char → Bool
  | [] => false
  | '4' :: '0' :: '1' :: _ => true
  | _ :: rest => has401 rest

/-- ApiClient.makeRequest (lines 167 to 196): an ok response yields the body;
a 401 status throws Authentication failed (401); any other non-ok status
throws the API-request-failed message built from the body error message or
the status text; a rejected fetch propagates. -/
def makeRequest (o : HttpOutcome) : Except JsError String :=
  match o with
  | HttpOutcome.ok body => Except.ok body
  | HttpOutcome.httpError status errMsg statusText =>
    if status = 401 then Except.error { message := "Authentication failed (401)" }
    else Except.error { message := "API request failed: " ++ errMsg.getD statusText }
  | HttpOutcome.netFailure m => Except.error { message := m }

/-- The message of an auth-service error as it travels through the catch of
makeAuthenticatedRequest (AuthError values are Error objects with these
messages). -/
def authErrorMessage : AuthError → String
  | AuthError.loginFailed m => m
  | AuthError.networkFailure m => m
  | AuthError.noToken => "No authentication token available"

/-- The observable trace of one logical call through the executor: its
result, how many makeRequest attempts ran, how many login calls ran, and the
session left behind. -/
structure CallTrace where
  result : Except JsError String
  attempts : Nat
  logins : Nat
  finalAuth : AuthState
  deriving Repr

/-- ApiClient.makeAuthenticatedRequest (lines 136 to 165): builds headers and
issues the first attempt inside a try; the catch re-logins and retries once
when the caught message mentions 401 and rethrows otherwise; an error of the
retry, or of the forced login, propagates. The att1 and att2 parameters are
the HTTP outcomes the first and second attempt would observe, and
loginOutcome is the exchange the forced login would perform. -/
def makeAuthenticatedRequest (s : AuthState) (att1 att2 : HttpOutcome)
    (loginOutcome : Except String LoginApiResponse) : CallTrace :=
  match (getAuthHeaders s).1 with
  | Except.error e =>
    { result := Except.error { message := authErrorMessage e },
      attempts := 0, logins := 0, finalAuth := s }
  | Except.ok _ =>
    match makeRequest att1 with
    | Except.ok b =>
      { result := Except.ok b, attempts := 1, logins := 0, finalAuth := s }
    | Except.error e =>
      if has401 e.message.data then
        match login s loginOutcome with
        | (Except.error le, s2) =>
          { result := Except.error { message := authErrorMessage le },
            attempts := 1, logins := 1, finalAuth := s2 }
        | (Except.ok _, s2) =>
          match (getAuthHeaders s2).1 with
          | Except.error e2 =>
            { result := Except.error { message := authErrorMessage e2 },
              attempts := 1, logins := 1, finalAuth := s2 }
          | Except.ok _ =>
            { result := makeRequest att2, attempts := 2, logins := 1,
              finalAuth := s2 }
      else
        { result := Except.error e, attempts := 1, logins := 0, finalAuth := s }

/-- The full logical call the public ApiClient methods make (fetchMessages,
sendEmail, markAsRead all run ensureAuthenticated first and then
makeAuthenticatedRequest); the login counter totals both layers. -/
def authedCall (now : Int) (s : AuthState)
    (ensureLoginO loginO : Except String LoginApiResponse)
    (att1 att2 : HttpOutcome) : CallTrace :=
  match ensureAuthenticated now s ensureLoginO with
  | (Except.error e, s2, n) =>
    { result := Except.error { message := authErrorMessage e },
      attempts := 0, logins := n, finalAuth := s2 }
  | (Except.ok _, s2, n) =>
    let t := makeAuthenticatedRequest s2 att1 att2 loginO
    { result := t.result, attempts := t.attempts, logins := t.logins + n,
      finalAuth := t.finalAuth }

/-- A session whose token is valid far beyond the skew. -/
def validSession : AuthState := { token := some "tok", tokenExpiry := some 900000 }

/-- C2 counterexample: the catch classifies the caught error by the substring
401 of its message, not by the status code, so a 500 response whose
server-supplied error message mentions 401 triggers the forced re-login and
the retry (2 attempts, 1 login) instead of propagating immediately with zero
retries as the claim requires of every non-401 error. -/
theorem non401_retry_counterexample :
    (makeAuthenticatedRequest validSession
      (HttpOutcome.httpError 500 (some "upstream said 401") "Internal Server Error")
      (HttpOutcome.ok "body") (Except.ok freshResponse)).attempts = 2
    ∧ (makeAuthenticatedRequest validSession
      (HttpOutcome.httpError 500 (some "upstream said 401") "Internal Server Error")
      (HttpOutcome.ok "body") (Except.ok freshResponse)).logins = 1
    ∧ (500 : Nat) ≠ 401 := by
  refine ⟨rfl, rfl, by decide⟩

/-- C2 amended: with a truthy token in place, a first attempt that succeeds
runs once with zero logins; a first attempt rejected with status 401 triggers
exactly one forced unconditional login and exactly one retry whose outcome is
the call's result (so a second 401 surfaces the Authentication failed (401)
error after 2 attempts and 1 forced login, with no further attempts); a first
attempt whose error message does not mention 401 propagates with one attempt
and zero logins; and the no-session double-401 scenario through the public
call totals 2 logins and 2 attempts. The claim's unconditional immediate
propagation of every non-401 error fails because the classification is by
message substring. -/
theorem single_forced_relogin_on_401 (s : AuthState) (att2 : HttpOutcome)
    (loginO : Except String LoginApiResponse) (htok : hasToken s = true) :
    (∀ body, makeAuthenticatedRequest s (HttpOutcome.ok body) att2 loginO
        = { result := Except.ok body, attempts := 1, logins := 0, finalAuth := s })
    ∧ (∀ em st r d, loginO = Except.ok r → r.success = true → r.data = some d →
        d.token ≠ "" →
        makeAuthenticatedRequest s (HttpOutcome.httpError 401 em st) att2 loginO
          = { result := makeRequest att2, attempts := 2, logins := 1,
              finalAuth := { token := some d.token, tokenExpiry := some d.expires_at } })
    ∧ (∀ o e, makeRequest o = Except.error e → has401 e.message.data = false →
        makeAuthenticatedRequest s o att2 loginO
          = { result := Except.error e, attempts := 1, logins := 0, finalAuth := s })
    ∧ authedCall 0 { token := none, tokenExpiry := none } (Except.ok freshResponse)
        (Except.ok freshResponse) (HttpOutcome.httpError 401 none "Unauthorized")
        (HttpOutcome.httpError 401 none "Unauthorized")
        = { result := Except.error { message := "Authentication failed (401)" },
            attempts := 2, logins := 2,
            finalAuth := { token := some "fresh", tokenExpiry := some 900000 } } := by
  have hh : ∃ hdrs, (getAuthHeaders s).1 = Except.ok hdrs := by
    cases hs : s.token with
    | none => rw [hasToken, hs] at htok; cases htok
    | some t =>
      rw [hasToken, hs] at htok
      have ht : t ≠ "" := of_decide_eq_true htok
      exact ⟨[("Authorization", "Bearer " ++ t)], by simp [getAuthHeaders, hs, ht]⟩
  obtain ⟨hdrs, hh⟩ := hh
  refine ⟨?_, ?_, ?_, rfl⟩
  · intro body
    simp [makeAuthenticatedRequest, hh, makeRequest]
  · intro em st r d hlo hsucc hdata hdtok
    subst hlo
    have hlogin : login s (Except.ok r)
        = (Except.ok d, { token := some d.token, tokenExpiry := some d.expires_at }) := by
      cases r with
      | mk succ dat e3 =>
        cases hsucc
        cases hdata
        rfl
    have h401 : has401 (JsError.mk "Authentication failed (401)").message.data = true := rfl
    simp [makeAuthenticatedRequest, hh, makeRequest, h401, hlogin]
    simp [getAuthHeaders, hdtok]
  · intro o e hmr hno
    simp [makeAuthenticatedRequest, hh, hmr, hno]

/-- C2 witness: a valid session, a 401 first attempt and a successful forced
login yield exactly two attempts, one login, the retry's outcome as result
and the refreshed session. -/
theorem single_forced_relogin_witness :
    makeAuthenticatedRequest validSession (HttpOutcome.httpError 401 none "Unauthorized")
        (HttpOutcome.ok "body") (Except.ok freshResponse)
      = { result := makeRequest (HttpOutcome.ok "body"), attempts := 2, logins := 1,
          finalAuth := { token := some "fresh", tokenExpiry := some 900000 } } :=
  (single_forced_relogin_on_401 validSession (HttpOutcome.ok "body")
      (Except.ok freshResponse) (by decide)).2.1 none "Unauthorized" freshResponse
    freshData rfl rfl rfl (by decide)

end TaiMcp
